import Mathlib

/-!
Verification development for the EventBooking server's seat-inventory core
(`server/controllers/booking.controller.js` together with the Sequelize models
`server/models/event.js` and the Booking model).

The controllers are embedded as pure functions over an explicit database
state.  A committed transaction is a `.ok` result carrying the new state; any
thrown error is an `.error` result and, because the controller rolls the
transaction back on every throw, an `.error` result leaves the state
untouched by construction.

JavaScript particulars that matter are modelled explicitly:
  * reading an attribute that the Sequelize model does not declare yields
    `undefined`; we model such reads as `Option.none`;
  * relational comparisons against `undefined`/`NaN` are `false`;
  * arithmetic with `undefined` yields `NaN`, modelled as `none : Option Int`;
  * Sequelize's `min`/`max` attribute validators pass `NaN` values
    (their implementation short-circuits on `isNaN`).
-/

/-- Booking status enum from the Booking model:
`ENUM("confirmed", "cancelled", "pending")`. -/
inductive BStatus where
  | confirmed
  | cancelled
  | pending
deriving DecidableEq, Repr

/-- A status counts against inventory when it is `confirmed` or `pending`;
this is the `status: { [Op.in]: ["confirmed", "pending"] }` filter used by
`validateBooking` and the definition of an active booking in the data model. -/
def activeStatus : BStatus → Bool
  | .confirmed => true
  | .pending => true
  | .cancelled => false

/-- An `events` row, with exactly the attributes declared by
`server/models/event.js` (and created by the events migration): `dateTime`,
`location`-style metadata omitted as irrelevant, `totalSeats`,
`availableSeats`, `price`, `isActive`.  Dates are integer timestamps and
money is an integer amount. -/
structure Event where
  id : Nat
  dateTime : Int
  totalSeats : Int
  availableSeats : Int
  price : Int
  isActive : Bool
deriving DecidableEq, Repr

/-- The controller reads `event.status`, but the Event model declares no
`status` attribute (its fields are `isActive`, `dateTime`, ...), so this
JavaScript property access yields `undefined` on every Event instance. -/
def statusAttr (_ev : Event) : Option String := none

/-- The controller reads `booking.Event.startDate`, but the Event model
declares `dateTime`, not `startDate`; the property access yields `undefined`
on every Event instance. -/
def startDateAttr (_ev : Event) : Option Int := none

/-- A `bookings` row, with exactly the attributes declared by the Booking
model: `userId`, `eventId`, `numberOfSeats` (INTEGER, default 1, validated
1..10), `totalAmount` (DECIMAL, which in Postgres may hold `NaN`, hence
`Option Int`), `status`, `bookingDate`.  The model declares no
`cancelledAt` attribute. -/
structure Booking where
  id : Nat
  userId : Nat
  eventId : Nat
  numberOfSeats : Int
  totalAmount : Option Int
  status : BStatus
  bookingDate : Int
deriving DecidableEq, Repr

/-- The shared database state: the `events` table and the `bookings` table. -/
structure DB where
  events : List Event
  bookings : List Booking
deriving DecidableEq, Repr

/-- Typed failures.  Each constructor corresponds to one throw site of the
source (spec taxonomy name in parentheses):
  * `notFound` — "Event not found" / "Booking not found" (NotFound);
  * `notBookable` — "Event is not available for booking" (NotBookable);
  * `insufficientSeats` — "Not enough seats available" (InsufficientSeats);
  * `duplicateBooking` — "You already have a booking for this event"
    (DuplicateBooking);
  * `forbidden` — "Not authorized to cancel this booking" (Forbidden);
  * `notCancellable` — "Only confirmed bookings can be cancelled"
    (NotCancellable);
  * `pastEvent` — "Cannot cancel booking for past events"
    (EventAlreadyStarted);
  * `uniqueViolation` — SequelizeUniqueConstraintError from the
    `unique_user_event_booking` index on (userId, eventId);
  * `validationFailed` — SequelizeValidationError from an attribute
    validator (numberOfSeats 1..10, min-0 bounds);
  * `seatsExceedTotal` — SequelizeValidationError thrown by the model-level
    validator `availableSeatsNotExceedTotal`: "Available seats cannot exceed
    total seats" (the surface of the spec's InvariantViolation);
  * `dbError` — a database-layer error (e.g. Postgres rejecting NaN for an
    INTEGER column). -/
inductive Err where
  | notFound
  | notBookable
  | insufficientSeats
  | duplicateBooking
  | forbidden
  | notCancellable
  | pastEvent
  | uniqueViolation
  | validationFailed
  | seatsExceedTotal
  | dbError
deriving DecidableEq, Repr

/-- `Event.findByPk(eventId)`. -/
def findEvent (s : DB) (eventId : Nat) : Option Event :=
  s.events.find? (fun e => decide (e.id = eventId))

/-- `Booking.findByPk(bookingId)`. -/
def findBooking (s : DB) (bookingId : Nat) : Option Booking :=
  s.bookings.find? (fun b => decide (b.id = bookingId))

/-- JavaScript `a < b` where `b` may be `undefined`: a relational comparison
with `undefined` (hence `NaN`) is `false`. -/
def jsLt (a : Int) (b : Option Int) : Bool :=
  match b with
  | none => false
  | some n => decide (a < n)

/-- JavaScript `a * b` where `b` may be `undefined`: `number * undefined`
is `NaN`, modelled as `none`. -/
def jsMul (a : Int) (b : Option Int) : Option Int :=
  match b with
  | none => none
  | some n => some (a * n)

/-- JavaScript `a - b` where `b` may be `undefined`: `number - undefined`
is `NaN`, modelled as `none`. -/
def jsSub (a : Int) (b : Option Int) : Option Int :=
  match b with
  | none => none
  | some n => some (a - n)

/-- `new Date(d) <= new Date(now)` where `d` may be `undefined`:
`new Date(undefined)` is an Invalid Date and every relational comparison
with it is `false`. -/
def jsDateLe (d : Option Int) (now : Int) : Bool :=
  match d with
  | none => false
  | some t => decide (t ≤ now)

/-- `Booking.count({ where: { userId, eventId, status: { [Op.in]:
["confirmed", "pending"] } } })` from `validateBooking`. -/
def existingActiveBookings (s : DB) (userId eventId : Nat) : Nat :=
  (s.bookings.filter (fun b =>
    decide (b.userId = userId) && decide (b.eventId = eventId) &&
      activeStatus b.status)).length

/-- The storage-layer unique index `unique_user_event_booking` on
(userId, eventId) — declared both in the Booking model's `indexes` and by
the bookings migration's `addConstraint`, with no restriction on status:
`true` when inserting a row for this (userId, eventId) would conflict. -/
def uniqueUserEventConflict (bookings : List Booking) (userId eventId : Nat) : Bool :=
  bookings.any (fun b => decide (b.userId = userId) && decide (b.eventId = eventId))

/-- `validateBooking(eventId, numberOfSeats, userId)` from
`booking.controller.js` lines 7-38, translated check for check:
  1. `Event.findByPk` — absent event fails 404;
  2. `event.status !== "upcoming"` — fails "Event is not available for
     booking" (note `statusAttr` is `none` on every event);
  3. `event.availableSeats < numberOfSeats` — fails "Not enough seats
     available";
  4. positive count of confirmed/pending bookings by the same user —
     fails "You already have a booking for this event". -/
def validateBooking (s : DB) (eventId : Nat) (numberOfSeats : Option Int)
    (userId : Nat) : Except Err Event :=
  match findEvent s eventId with
  | none => .error .notFound
  | some ev =>
    if statusAttr ev ≠ some "upcoming" then .error .notBookable
    else if jsLt ev.availableSeats numberOfSeats then .error .insufficientSeats
    else if 0 < existingActiveBookings s userId eventId then .error .duplicateBooking
    else .ok ev

/-- `UPDATE events SET availableSeats = v WHERE id = eventId`. -/
def setAvail (events : List Event) (eventId : Nat) (v : Int) : List Event :=
  events.map (fun e => if e.id = eventId then { e with availableSeats := v } else e)

/-- `UPDATE bookings SET status = cancelled WHERE id = bookingId`.  The
controller also passes `cancelledAt`, but the Booking model declares no
such attribute, so Sequelize drops that key (see
`cancelPersistedUpdateKeys`). -/
def setCancelled (bookings : List Booking) (bookingId : Nat) : List Booking :=
  bookings.map (fun b => if b.id = bookingId then { b with status := .cancelled } else b)

/-- The write half of `createBooking` (lines 50-66), given the event
instance returned by `validateBooking`:
  * `Booking.create` builds the row — `numberOfSeats` falls back to the
    model default 1 when the request value is `undefined` — and validates
    it (`numberOfSeats` 1..10; `totalAmount` min 0, where a `NaN` amount
    passes because Sequelize's min validator short-circuits on `isNaN`),
    then inserts it, which can hit the (userId, eventId) unique index;
  * `event.update({ availableSeats: event.availableSeats - numberOfSeats })`
    validates the new value (min 0, again passing `NaN`) and the
    model-level `availableSeatsNotExceedTotal` (a `NaN` comparison is
    `false`, so `NaN` passes), then writes it; Postgres rejects `NaN`
    for the INTEGER column (`dbError`);
  * on success both writes commit together. -/
def reserveWrites (s : DB) (userId eventId : Nat) (numberOfSeats : Option Int)
    (ev : Event) (now : Int) (newId : Nat) : Except Err DB :=
  let storedSeats : Int := numberOfSeats.getD 1
  if ¬ (1 ≤ storedSeats ∧ storedSeats ≤ 10) then .error .validationFailed
  else
    let totalAmount := jsMul ev.price numberOfSeats
    if (match totalAmount with | none => false | some a => decide (a < 0)) = true then
      .error .validationFailed
    else if uniqueUserEventConflict s.bookings userId eventId then .error .uniqueViolation
    else
      match jsSub ev.availableSeats numberOfSeats with
      | none => .error .dbError
      | some newAvail =>
        if newAvail < 0 then .error .validationFailed
        else if ev.totalSeats < newAvail then .error .seatsExceedTotal
        else
          .ok { events := setAvail s.events ev.id newAvail,
                bookings := s.bookings ++
                  [{ id := newId, userId := userId, eventId := eventId,
                     numberOfSeats := storedSeats, totalAmount := totalAmount,
                     status := .confirmed, bookingDate := now }] }

/-- `createBooking` (lines 41-90): validate, then perform both writes inside
one transaction; any throw rolls the transaction back, so an `.error`
result carries no state change. -/
def createBooking (s : DB) (userId eventId : Nat) (numberOfSeats : Option Int)
    (now : Int) (newId : Nat) : Except Err DB :=
  match validateBooking s eventId numberOfSeats userId with
  | .error e => .error e
  | .ok ev => reserveWrites s userId eventId numberOfSeats ev now newId

/-- `cancelBooking` (lines 134-179), translated check for check.

Modelled from the spec: the association wiring (`models/index.js`) that
resolves `Booking.findByPk(id, { include: [Event] })` is not among the
source files; per the spec's Cancellation Protocol step 1 ("Load booking by
id, including its event") the booking is loaded together with the event row
referenced by its `eventId` foreign key.

  1. absent booking fails 404;
  2. actor must be the owner or have role `"admin"`;
  3. a booking whose status is not `confirmed` fails "Only confirmed
     bookings can be cancelled";
  4. `new Date(booking.Event.startDate) <= new Date()` — note
     `startDateAttr` is `none` on every event, so this guard never fires;
  5. `booking.update({ status: "cancelled", cancelledAt: ... })` — only the
     `status` key is a declared attribute and is persisted;
  6. `booking.Event.update({ availableSeats: ... + booking.numberOfSeats })`
    runs the attribute validator (min 0) and the model validator
    `availableSeatsNotExceedTotal`;
  7. both writes commit together; any throw rolls everything back. -/
def cancelBooking (s : DB) (actorId : Nat) (actorRole : String)
    (bookingId : Nat) (now : Int) : Except Err DB :=
  match findBooking s bookingId with
  | none => .error .notFound
  | some b =>
    match findEvent s b.eventId with
    | none => .error .dbError
    | some ev =>
      if b.userId ≠ actorId ∧ actorRole ≠ "admin" then .error .forbidden
      else if b.status ≠ BStatus.confirmed then .error .notCancellable
      else if jsDateLe (startDateAttr ev) now then .error .pastEvent
      else if ev.availableSeats + b.numberOfSeats < 0 then .error .validationFailed
      else if ev.totalSeats < ev.availableSeats + b.numberOfSeats then .error .seatsExceedTotal
      else
        .ok { events := setAvail s.events ev.id (ev.availableSeats + b.numberOfSeats),
              bookings := setCancelled s.bookings b.id }

/-- The two inventory-mutating operations of the core. -/
inductive Op where
  | reserve (userId eventId : Nat) (numberOfSeats : Option Int)
  | cancel (actorId : Nat) (actorRole : String) (bookingId : Nat)

/-- Run one committed-or-rolled-back operation against the store. -/
def applyOp (s : DB) (op : Op) (now : Int) (newId : Nat) : Except Err DB :=
  match op with
  | .reserve u e n => createBooking s u e n now newId
  | .cancel a r b => cancelBooking s a r b now

/-- Sum of the seat counts of the confirmed/pending bookings of one event. -/
def activeSeats (bookings : List Booking) (eventId : Nat) : Int :=
  ((bookings.filter (fun b => decide (b.eventId = eventId) && activeStatus b.status)).map
    (fun b => b.numberOfSeats)).sum

/-- The relationship invariant of the data model: for every event,
available seats = total seats − Σ(seat counts of its confirmed/pending
bookings). -/
def SeatInvariant (s : DB) : Prop :=
  ∀ ev ∈ s.events, ev.availableSeats = ev.totalSeats - activeSeats s.bookings ev.id

/-- Structural well-formedness of the store: primary keys are unique in
each table and every persisted booking respects the model's
`numberOfSeats` minimum of 1. -/
def WF (s : DB) : Prop :=
  (s.events.map (fun e => e.id)).Nodup ∧
  (s.bookings.map (fun b => b.id)).Nodup ∧
  ∀ b ∈ s.bookings, 1 ≤ b.numberOfSeats

/-- `availableSeats ≤ totalSeats` for every event row. -/
def SeatsBounded (s : DB) : Prop :=
  ∀ ev ∈ s.events, ev.availableSeats ≤ ev.totalSeats

instance (s : DB) : Decidable (SeatInvariant s) := by
  unfold SeatInvariant
  exact List.decidableBAll _ _

instance (s : DB) : Decidable (WF s) := by
  unfold WF
  infer_instance

instance (s : DB) : Decidable (SeatsBounded s) := by
  unfold SeatsBounded
  exact List.decidableBAll _ _

/-- `true` on a result that committed. -/
def isOkResult (r : Except Err DB) : Bool :=
  match r with
  | .ok _ => true
  | .error _ => false

/-- Attribute names declared on the Booking model (its declared fields, the
primary key and the two timestamp columns added by `timestamps: true`). -/
def bookingTableAttributes : List String :=
  ["id", "userId", "eventId", "numberOfSeats", "totalAmount", "status",
   "bookingDate", "createdAt", "updatedAt"]

/-- The keys the controller passes to `booking.update` when cancelling. -/
def cancelUpdateKeys : List String := ["status", "cancelledAt"]

/-- Sequelize persists only the update keys that are declared attributes of
the model (`options.fields` is intersected with the table attributes). -/
def cancelPersistedUpdateKeys : List String :=
  cancelUpdateKeys.filter (fun k => bookingTableAttributes.contains k)

/-- The Joi `bookingSchema`: `numberOfSeats` is an optional integer
between 1 and 10, so a request without it is accepted at the boundary. -/
def bookingSchemaAcceptsSeats : Option Int → Bool
  | none => true
  | some n => decide (1 ≤ n) && decide (n ≤ 10)

/-- The seat count actually stored on a created booking row: the request
value, or the model's `defaultValue: 1` when the request omits it. -/
def bookingStoredSeats (numberOfSeats : Option Int) : Int :=
  numberOfSeats.getD 1

/-- `true` when the decrement applied to `availableSeats` by `createBooking`
matches the seat count stored on the booking row. -/
def decrementMatchesStored (avail : Int) (numberOfSeats : Option Int) : Bool :=
  jsSub avail numberOfSeats == some (avail - bookingStoredSeats numberOfSeats)

example : createBooking ⟨[⟨1, 1000, 5, 5, 10, true⟩], []⟩ 7 1 (some 2) 0 50 =
    .error .notBookable := by rfl

example : cancelBooking ⟨[⟨1, 100, 10, 7, 50, true⟩],
    [⟨5, 2, 1, 3, some 150, .confirmed, 0⟩]⟩ 2 "user" 5 0 =
    .ok ⟨[⟨1, 100, 10, 10, 50, true⟩], [⟨5, 2, 1, 3, some 150, .cancelled, 0⟩]⟩ := by rfl

lemma reserve_never_commits (s : DB) (u e : Nat) (n : Option Int) (now : Int) (nid : Nat) :
    isOkResult (createBooking s u e n now nid) = false := by
  unfold createBooking validateBooking
  cases hfe : findEvent s e with
  | none => rfl
  | some ev => simp [statusAttr, isOkResult]

lemma activeSeats_cons (hd : Booking) (tl : List Booking) (eid : Nat) :
    activeSeats (hd :: tl) eid =
      (if hd.eventId = eid ∧ activeStatus hd.status = true then hd.numberOfSeats else 0) +
        activeSeats tl eid := by
  unfold activeSeats
  rw [List.filter_cons]
  by_cases h : hd.eventId = eid ∧ activeStatus hd.status = true
  · simp [h.1, h.2]
  · have hb : (decide (hd.eventId = eid) && activeStatus hd.status) = false := by
      rcases Decidable.not_and_iff_or_not.mp h with h1 | h1
      · simp [h1]
      · simp [Bool.eq_false_iff.mpr h1]
    simp [hb, h]

lemma setCancelled_eq_self (l : List Booking) (bid : Nat)
    (h : ∀ b ∈ l, b.id ≠ bid) : setCancelled l bid = l := by
  unfold setCancelled
  have : ∀ b ∈ l, (if b.id = bid then { b with status := BStatus.cancelled } else b) = b := by
    intro b hb
    rw [if_neg (h b hb)]
  rw [List.map_congr_left this, List.map_id']

lemma activeSeats_setCancelled (bid : Nat) (b0 : Booking) (l : List Booking)
    (hmem : b0 ∈ l) (hid : b0.id = bid) (hnodup : (l.map (fun b => b.id)).Nodup)
    (hact : activeStatus b0.status = true) (eid : Nat) :
    activeSeats (setCancelled l bid) eid =
      activeSeats l eid - (if b0.eventId = eid then b0.numberOfSeats else 0) := by
  induction l with
  | nil => cases hmem
  | cons hd tl ih =>
    rw [List.map_cons, List.nodup_cons] at hnodup
    rcases List.mem_cons.mp hmem with rfl | hmem'
    · have htl : setCancelled tl bid = tl := by
        apply setCancelled_eq_self
        intro b hb heq
        apply hnodup.1
        rw [hid, ← heq]
        exact List.mem_map.mpr ⟨b, hb, rfl⟩
      have hcons : setCancelled (b0 :: tl) bid =
          { b0 with status := BStatus.cancelled } :: tl := by
        unfold setCancelled
        rw [List.map_cons, if_pos hid]
        unfold setCancelled at htl
        rw [htl]
      rw [hcons, activeSeats_cons, activeSeats_cons]
      have hfalse : ¬ (({ b0 with status := BStatus.cancelled } : Booking).eventId = eid ∧
          activeStatus ({ b0 with status := BStatus.cancelled } : Booking).status = true) := by
        intro h
        have h2 := h.2
        rw [show ({ b0 with status := BStatus.cancelled } : Booking).status =
          BStatus.cancelled from rfl] at h2
        exact absurd h2 (by decide)
      rw [if_neg hfalse]
      by_cases hev : b0.eventId = eid
      · rw [if_pos ⟨hev, hact⟩, if_pos hev]
        omega
      · rw [if_neg (fun h => hev h.1), if_neg hev]
        omega
    · have hhd : hd.id ≠ bid := by
        intro heq
        apply hnodup.1
        rw [heq, ← hid]
        exact List.mem_map.mpr ⟨b0, hmem', rfl⟩
      have hcons : setCancelled (hd :: tl) bid = hd :: setCancelled tl bid := by
        unfold setCancelled
        rw [List.map_cons, if_neg hhd]
      rw [hcons, activeSeats_cons, activeSeats_cons,
        ih hmem' hnodup.2]
      omega

lemma setAvail_ids (events : List Event) (eid : Nat) (v : Int) :
    (setAvail events eid v).map (fun e => e.id) = events.map (fun e => e.id) := by
  unfold setAvail
  rw [List.map_map]
  apply List.map_congr_left
  intro e _
  by_cases h : e.id = eid <;> simp [h]

lemma setCancelled_ids (l : List Booking) (bid : Nat) :
    (setCancelled l bid).map (fun b => b.id) = l.map (fun b => b.id) := by
  unfold setCancelled
  rw [List.map_map]
  apply List.map_congr_left
  intro b _
  by_cases h : b.id = bid <;> simp [h]

lemma setCancelled_seats (l : List Booking) (bid : Nat) :
    ∀ b ∈ setCancelled l bid, ∃ b0 ∈ l, b.numberOfSeats = b0.numberOfSeats := by
  intro b hb
  unfold setCancelled at hb
  rcases List.mem_map.mp hb with ⟨b0, hb0, rfl⟩
  refine ⟨b0, hb0, ?_⟩
  by_cases h : b0.id = bid <;> simp [h]

lemma find_booking_facts {s : DB} {bid : Nat} {b : Booking}
    (h : findBooking s bid = some b) : b ∈ s.bookings ∧ b.id = bid := by
  unfold findBooking at h
  have hp := List.find?_some h
  simp only [decide_eq_true_eq] at hp
  exact ⟨List.mem_of_find?_eq_some h, hp⟩

lemma find_event_facts {s : DB} {eid : Nat} {ev : Event}
    (h : findEvent s eid = some ev) : ev ∈ s.events ∧ ev.id = eid := by
  unfold findEvent at h
  have hp := List.find?_some h
  simp only [decide_eq_true_eq] at hp
  exact ⟨List.mem_of_find?_eq_some h, hp⟩

lemma cancel_ok_inv {s : DB} {a : Nat} {r : String} {bid : Nat} {now : Int} {s' : DB}
    (h : cancelBooking s a r bid now = .ok s') :
    ∃ b ev, findBooking s bid = some b ∧ findEvent s b.eventId = some ev ∧
      b.status = BStatus.confirmed ∧
      0 ≤ ev.availableSeats + b.numberOfSeats ∧
      ev.availableSeats + b.numberOfSeats ≤ ev.totalSeats ∧
      s' = { events := setAvail s.events ev.id (ev.availableSeats + b.numberOfSeats),
             bookings := setCancelled s.bookings b.id } := by
  unfold cancelBooking at h
  split at h
  · exact absurd h (by simp)
  next b hfb =>
    split at h
    · exact absurd h (by simp)
    next ev hfe =>
      split at h
      · exact absurd h (by simp)
      next hauth =>
        split at h
        · exact absurd h (by simp)
        next hconf =>
          split at h
          · exact absurd h (by simp)
          next hdate =>
            split at h
            · exact absurd h (by simp)
            next hmin =>
              split at h
              · exact absurd h (by simp)
              next hmax =>
                exact ⟨b, ev, hfb, hfe, not_not.mp hconf, by omega, by omega,
                  ((Except.ok.injEq _ _).mp h).symm⟩

/-- C1: for every event, after every committed reserve or cancel operation,
`availableSeats` equals `totalSeats` minus the sum of the seat counts of
that event's confirmed/pending bookings.  Stated as preservation: any
committed `applyOp` keeps both the relationship invariant and structural
well-formedness.  (On this code a reserve never commits, because
`validateBooking` rejects every event at the `event.status` check; a
committed cancel moves exactly the booking's seat count back.) -/
theorem c1_seat_invariant_preserved (s : DB) (op : Op) (now : Int) (newId : Nat)
    (s' : DB) (hwf : WF s) (hinv : SeatInvariant s)
    (hok : applyOp s op now newId = .ok s') : SeatInvariant s' ∧ WF s' := by
  cases op with
  | reserve u e n =>
    have hnever := reserve_never_commits s u e n now newId
    rw [applyOp] at hok
    rw [hok] at hnever
    exact absurd hnever (by simp [isOkResult])
  | cancel a r bid =>
    rw [applyOp] at hok
    obtain ⟨b, ev, hfb, hfe, hconf, hlb, hub, rfl⟩ := cancel_ok_inv hok
    obtain ⟨hbmem, hbid⟩ := find_booking_facts hfb
    obtain ⟨hevmem, hevid⟩ := find_event_facts hfe
    obtain ⟨hnodupE, hnodupB, hseats1⟩ := hwf
    have hact : activeStatus b.status = true := by rw [hconf]; rfl
    have hsum := activeSeats_setCancelled b.id b s.bookings hbmem rfl hnodupB hact
    constructor
    · intro ev' hmem'
      unfold setAvail at hmem'
      obtain ⟨e, he, rfl⟩ := List.mem_map.mp hmem'
      by_cases hid : e.id = ev.id
      · have heq : e = ev := List.inj_on_of_nodup_map hnodupE he hevmem hid
        subst heq
        rw [if_pos rfl]
        have hgoal := hsum e.id
        rw [if_pos hevid.symm] at hgoal
        have hbase := hinv e he
        show e.availableSeats + b.numberOfSeats =
          e.totalSeats - activeSeats (setCancelled s.bookings b.id) e.id
        omega
      · rw [if_neg hid]
        have hgoal := hsum e.id
        have hne : ¬ b.eventId = e.id := by
          intro hcontra
          exact hid (by rw [hevid, hcontra])
        rw [if_neg hne] at hgoal
        have hbase := hinv e he
        show e.availableSeats =
          e.totalSeats - activeSeats (setCancelled s.bookings b.id) e.id
        omega
    · refine ⟨?_, ?_, ?_⟩
      · show ((setAvail s.events ev.id _).map (fun e => e.id)).Nodup
        rw [setAvail_ids]
        exact hnodupE
      · show ((setCancelled s.bookings b.id).map (fun b => b.id)).Nodup
        rw [setCancelled_ids]
        exact hnodupB
      · intro b' hb'
        obtain ⟨b0, hb0, hs⟩ := setCancelled_seats s.bookings b.id b' hb'
        rw [hs]
        exact hseats1 b0 hb0

/-- Witness for C1: a concrete well-formed, invariant-satisfying store in
which the owner cancels their confirmed three-seat booking; the committed
result satisfies the relationship invariant again. -/
theorem c1_seat_invariant_preserved_witness :
    WF ⟨[⟨1, 100, 10, 7, 50, true⟩], [⟨5, 2, 1, 3, some 150, .confirmed, 0⟩]⟩ ∧
    SeatInvariant ⟨[⟨1, 100, 10, 7, 50, true⟩], [⟨5, 2, 1, 3, some 150, .confirmed, 0⟩]⟩ ∧
    (SeatInvariant ⟨[⟨1, 100, 10, 10, 50, true⟩], [⟨5, 2, 1, 3, some 150, .cancelled, 0⟩]⟩ ∧
      WF ⟨[⟨1, 100, 10, 10, 50, true⟩], [⟨5, 2, 1, 3, some 150, .cancelled, 0⟩]⟩) :=
  ⟨by decide, by decide,
    c1_seat_invariant_preserved
      ⟨[⟨1, 100, 10, 7, 50, true⟩], [⟨5, 2, 1, 3, some 150, .confirmed, 0⟩]⟩
      (.cancel 2 "user" 5) 0 99
      ⟨[⟨1, 100, 10, 10, 50, true⟩], [⟨5, 2, 1, 3, some 150, .cancelled, 0⟩]⟩
      (by decide) (by decide) (by rfl)⟩

/-- C9: `availableSeats ≤ totalSeats` is preserved by every committed
operation, and a cancellation whose seat increment would exceed
`totalSeats` fails — the model-level validator
`availableSeatsNotExceedTotal` throws (surfaced here as
`Err.seatsExceedTotal`, the code's InvariantViolation), the transaction is
rolled back, and the value is never clamped. -/
theorem c9_available_never_exceeds_total :
    (∀ (s : DB) (op : Op) (now : Int) (newId : Nat) (s' : DB),
      WF s → SeatsBounded s → applyOp s op now newId = .ok s' → SeatsBounded s') ∧
    (∀ (s : DB) (a : Nat) (r : String) (bid : Nat) (now : Int) (b : Booking) (ev : Event),
      findBooking s bid = some b → findEvent s b.eventId = some ev →
      (b.userId = a ∨ r = "admin") → b.status = BStatus.confirmed →
      ¬ (ev.availableSeats + b.numberOfSeats < 0) →
      ev.totalSeats < ev.availableSeats + b.numberOfSeats →
      cancelBooking s a r bid now = .error .seatsExceedTotal) := by
  constructor
  · intro s op now newId s' hwf hbnd hok
    cases op with
    | reserve u e n =>
      have hnever := reserve_never_commits s u e n now newId
      rw [applyOp] at hok
      rw [hok] at hnever
      exact absurd hnever (by simp [isOkResult])
    | cancel a r bid =>
      rw [applyOp] at hok
      obtain ⟨b, ev, hfb, hfe, hconf, hlb, hub, rfl⟩ := cancel_ok_inv hok
      obtain ⟨hevmem, hevid⟩ := find_event_facts hfe
      intro ev' hmem'
      unfold setAvail at hmem'
      obtain ⟨e, he, rfl⟩ := List.mem_map.mp hmem'
      by_cases hid : e.id = ev.id
      · have heq : e = ev := List.inj_on_of_nodup_map hwf.1 he hevmem hid
        subst heq
        rw [if_pos rfl]
        show e.availableSeats + b.numberOfSeats ≤ e.totalSeats
        omega
      · rw [if_neg hid]
        exact hbnd e he
  · intro s a r bid now b ev hfb hfe hauth hconf hmin hexceed
    unfold cancelBooking
    split
    next hnone =>
      rw [hfb] at hnone
      cases hnone
    next b1 hsome =>
      rw [hfb] at hsome
      injection hsome with hb1
      subst hb1
      split
      next hnone =>
        rw [hfe] at hnone
        cases hnone
      next ev1 hsome1 =>
        rw [hfe] at hsome1
        injection hsome1 with hev1
        subst hev1
        have h1 : ¬ (b.userId ≠ a ∧ r ≠ "admin") := by
          rcases hauth with h | h <;> simp [h]
        have h2 : ¬ (b.status ≠ BStatus.confirmed) := by simp [hconf]
        have h3 : ¬ (jsDateLe (startDateAttr ev) now = true) := by
          intro hc
          exact absurd hc (by rw [show jsDateLe (startDateAttr ev) now = false from rfl]; simp)
        rw [if_neg h1, if_neg h2, if_neg h3, if_neg hmin, if_pos hexceed]

/-- Witness for C9: a concrete committed cancel keeps the bound, and in a
concrete corrupted store (availableSeats 4, totalSeats 5, a confirmed
3-seat booking) the cancel fails with the model validator's error. -/
theorem c9_available_never_exceeds_total_witness :
    SeatsBounded ⟨[⟨1, 100, 10, 10, 50, true⟩], [⟨5, 2, 1, 3, some 150, .cancelled, 0⟩]⟩ ∧
    cancelBooking ⟨[⟨1, 50, 5, 4, 10, true⟩], [⟨2, 3, 1, 3, some 30, .confirmed, 0⟩]⟩
      3 "user" 2 0 = .error .seatsExceedTotal :=
  ⟨c9_available_never_exceeds_total.1
      ⟨[⟨1, 100, 10, 7, 50, true⟩], [⟨5, 2, 1, 3, some 150, .confirmed, 0⟩]⟩
      (.cancel 2 "user" 5) 0 99
      ⟨[⟨1, 100, 10, 10, 50, true⟩], [⟨5, 2, 1, 3, some 150, .cancelled, 0⟩]⟩
      (by decide) (by decide) (by rfl),
    c9_available_never_exceeds_total.2
      ⟨[⟨1, 50, 5, 4, 10, true⟩], [⟨2, 3, 1, 3, some 30, .confirmed, 0⟩]⟩
      3 "user" 2 0 ⟨2, 3, 1, 3, some 30, .confirmed, 0⟩ ⟨1, 50, 5, 4, 10, true⟩
      (by rfl) (by rfl) (Or.inl rfl) rfl (by decide) (by decide)⟩

/-- C4 (failing-input evaluation): `event.status` is `undefined` on every
Event instance, so the "Event is not available for booking" guard fires for
every existing event — here an active event (isActive = true) whose
`dateTime` 1000 lies in the future of `now = 0`, with 5 of 5 seats free,
is still rejected, where the claim says NotBookable must not occur. -/
theorem c4_dead_status_guard :
    (∀ ev : Event, statusAttr ev = none) ∧
    createBooking ⟨[⟨1, 1000, 5, 5, 10, true⟩], []⟩ 7 1 (some 2) 0 50 =
      .error .notBookable :=
  ⟨fun _ => rfl, rfl⟩

/-- C3 (failing-input evaluation): no call to `createBooking` ever commits —
every reservation dies at the `event.status` guard — so the claimed success
path (one confirmed booking, `totalAmount = price × seatCount`, decrement
by exactly seatCount) is unreachable; in particular a fully valid request
(active future event, 10 of 10 seats, no prior booking) errors. -/
theorem c3_success_path_unreachable :
    (∀ (s : DB) (u e : Nat) (n : Option Int) (now : Int) (nid : Nat),
      isOkResult (createBooking s u e n now nid) = false) ∧
    createBooking ⟨[⟨1, 500, 10, 10, 50, true⟩], []⟩ 3 1 (some 3) 7 42 =
      .error .notBookable :=
  ⟨fun s u e n now nid => reserve_never_commits s u e n now nid, rfl⟩

/-- C8 (failing-input evaluation): with 2 seats available and 3 requested
the availability condition `availableSeats < numberOfSeats` holds, so the
claim demands `InsufficientSeats`; the code instead fails at the preceding
dead `event.status` guard with NotBookable (the seats check is
unreachable). -/
theorem c8_insufficient_seats_masked :
    jsLt (2 : Int) (some 3) = true ∧
    createBooking ⟨[⟨1, 900, 10, 2, 5, true⟩], []⟩ 4 1 (some 3) 0 9 =
      .error .notBookable :=
  ⟨rfl, rfl⟩

/-- C7 (failing-input evaluation): the cancel guard compares
`new Date(booking.Event.startDate)` — an Invalid Date, since the Event
model declares `dateTime`, not `startDate` — so it never fires: cancelling
a confirmed booking of an event that started at time −100 (now = 0)
succeeds and mutates both rows, where the claim demands an
EventAlreadyStarted failure with no modification. -/
theorem c7_past_event_guard_never_fires :
    (∀ (ev : Event) (now : Int), jsDateLe (startDateAttr ev) now = false) ∧
    cancelBooking ⟨[⟨1, -100, 10, 7, 50, true⟩], [⟨5, 2, 1, 3, some 150, .confirmed, 0⟩]⟩
      2 "user" 5 0 =
      .ok ⟨[⟨1, -100, 10, 10, 50, true⟩], [⟨5, 2, 1, 3, some 150, .cancelled, 0⟩]⟩ :=
  ⟨fun _ _ => rfl, rfl⟩

/-- C6 (failing-input evaluation): the owner's cancel of a confirmed
booking of a future event commits — status becomes cancelled and exactly
the booking's 3 seats return to the event — and a second cancel fails with
NotCancellable; but of the two keys passed to `booking.update` only
`status` is a declared Booking attribute, so no cancellation timestamp is
persisted (`cancelledAt` is silently dropped), contrary to the claim. -/
theorem c6_cancel_effects_no_timestamp :
    cancelBooking ⟨[⟨1, 100, 10, 7, 50, true⟩], [⟨5, 2, 1, 3, some 150, .confirmed, 0⟩]⟩
      2 "user" 5 0 =
      .ok ⟨[⟨1, 100, 10, 10, 50, true⟩], [⟨5, 2, 1, 3, some 150, .cancelled, 0⟩]⟩ ∧
    cancelBooking ⟨[⟨1, 100, 10, 10, 50, true⟩], [⟨5, 2, 1, 3, some 150, .cancelled, 0⟩]⟩
      2 "user" 5 0 = .error .notCancellable ∧
    cancelPersistedUpdateKeys = ["status"] :=
  ⟨rfl, rfl, rfl⟩

/-- C2 (failing-input evaluation): `Event.findByPk` in `validateBooking`
runs with no transaction, no row lock and no retry, so two concurrent
one-seat reservation attempts by users 10 and 20 against the same
one-seat event both validate against the same snapshot with
`availableSeats = 1`; on that shared stale read the seat-sufficiency
condition passes for both (`jsLt 1 (some 1) = false`, i.e. neither would
fail InsufficientSeats), and on the literal code both attempts are in fact
rejected by the dead `event.status` guard rather than serialized by any
lock. -/
theorem c2_no_lock_shared_snapshot :
    validateBooking ⟨[⟨1, 100, 1, 1, 5, true⟩], []⟩ 1 (some 1) 10 = .error .notBookable ∧
    validateBooking ⟨[⟨1, 100, 1, 1, 5, true⟩], []⟩ 1 (some 1) 20 = .error .notBookable ∧
    jsLt (1 : Int) (some 1) = false :=
  ⟨rfl, rfl, rfl⟩

/-- C5 (counterexample): user 2's booking for event 1 is cancelled, the
event is active with a future `dateTime` and all 10 seats free, yet a new
reserve by user 2 for event 1 does not succeed — it returns an error —
contrary to the claim's "a new reserve by the same user for the same event
succeeds". -/
theorem c5_counterexample :
    createBooking ⟨[⟨1, 800, 10, 10, 50, true⟩], [⟨3, 2, 1, 3, some 150, .cancelled, 0⟩]⟩
      2 1 (some 8) 10 77 = .error .notBookable :=
  rfl

/-- C5 (amended): the application-level duplicate check counts only
confirmed/pending bookings (a cancelled row counts 0, a confirmed row
counts 1), but the storage-layer unique index `unique_user_event_booking`
is on (userId, eventId) with no status restriction — a cancelled row still
conflicts with a new insert for the same pair — and in any case every
reserve is rejected by the dead `event.status` guard before either check
matters, so a post-cancellation re-reserve by the same user fails. -/
theorem c5_duplicate_handling_actual :
    existingActiveBookings ⟨[⟨1, 800, 10, 10, 50, true⟩], [⟨3, 2, 1, 3, some 150, .cancelled, 0⟩]⟩ 2 1 = 0 ∧
    existingActiveBookings ⟨[⟨1, 800, 10, 10, 50, true⟩], [⟨3, 2, 1, 3, some 150, .confirmed, 0⟩]⟩ 2 1 = 1 ∧
    uniqueUserEventConflict [⟨3, 2, 1, 3, some 150, .cancelled, 0⟩] 2 1 = true ∧
    createBooking ⟨[⟨1, 800, 10, 10, 50, true⟩], [⟨3, 2, 1, 3, some 150, .cancelled, 0⟩]⟩
      2 1 (some 8) 10 77 = .error .notBookable :=
  ⟨rfl, rfl, rfl, rfl⟩

/-- C10: a request without `numberOfSeats` is accepted by the Joi schema
(the field is optional); the availability check `availableSeats <
numberOfSeats` is false for every inventory level when the value is
`undefined`; the computed `totalAmount = price * numberOfSeats` is NaN for
every price; the booking row stores the model default of 1 seat; and the
decrement applied to the event (NaN) never matches that stored seat
count. -/
theorem c10_undefined_seats_unbounded :
    bookingSchemaAcceptsSeats none = true ∧
    (∀ avail : Int, jsLt avail none = false) ∧
    (∀ price : Int, jsMul price none = none) ∧
    bookingStoredSeats none = 1 ∧
    (∀ avail : Int, decrementMatchesStored avail none = false) :=
  ⟨rfl, fun _ => rfl, fun _ => rfl, rfl, fun _ => rfl⟩
